import Mathlib

/-!
Shallow embedding of the vkara-api room-coordination engine.

The Lean definitions below are translated from the TypeScript source:
the command handlers of the websocket server (`joinRoom`, `addVideo`,
`nextVideo`, `play`, `pause`, `seek`, ... in the main server module),
the helpers of `src/utils/common.ts` (`generateRandomNumber`,
`shuffleArray`), and the lifecycle worker (`cleanupInactiveRooms` in
the cleanup queue module).

Conventions:
* JavaScript numbers that hold millisecond timestamps, durations and
  playback positions are modelled as `Int`; the two float-valued
  cleanup settings read with `parseFloat` are modelled as `Rat`.
* `Math.random()` is modelled as a rational draw `r` with `0 ≤ r < 1`,
  passed explicitly.  The random comparator used by `Array.sort` in
  `shuffleArray` is modelled as a stream of booleans, one per
  comparison.
* Redis is modelled as association lists: `room:<id>` keys become the
  `rooms` list, the `client:<id> → roomId` hashes become `clientRoom`.
* Functions that `throw new RoomError(code)` return `Except ErrorCode`.
* `Bun.password.verify` / `Bun.password.hash` and the network-facing
  `checkEmbeddable` probe are opaque parameters.
-/

/-- Video descriptor (the `YouTubeVideo` record produced by
`cleanUpVideoField`).  Only the fields that the engine control flow reads
are kept: `id` (compared with `===` throughout) and `duration`
(seconds, used by the cleanup worker).  `title` stands in for the
remaining inert payload fields. -/
structure YouTubeVideo where
  id : String
  title : String
  duration : Int
deriving Repr, DecidableEq

/-- The `Room` record stored under `room:<id>` in Redis. -/
structure Room where
  id : String
  password : Option String
  clients : List String
  videoQueue : List YouTubeVideo
  historyQueue : List YouTubeVideo
  volume : Int
  playingNow : Option YouTubeVideo
  lastActivity : Int
  creatorId : String
  isPlaying : Bool
  currentTime : Int
deriving Repr, DecidableEq

/-- The `ErrorCode` enum of the errors module (string values appear in
`errorWithCode` frames). -/
inductive ErrorCode
  | internalError
  | invalidMessage
  | roomNotFound
  | rejoinRoomNotFound
  | notInRoom
  | incorrectPassword
  | roomClosed
  | notCreatorOfRoom
  | alreadyInQueue
  | videoNotFound
  | videoNotEmbeddable
deriving Repr, DecidableEq

/-- Global configuration of the password scheme: the
`IS_ENCRYPTED_PASSWORD` flag plus the opaque `Bun.password` verify and
hash primitives. -/
structure Config where
  isEncryptedPassword : Bool
  verify : String → String → Bool
  hash : String → String

/-- The password gate at the top of `joinRoom`:
`if (!isNullish(password) && !isNullish(room?.password))` followed by
the scheme-dependent comparison.  Note that the whole check is skipped
unless BOTH the supplied and the stored password are present. -/
def passwordAccepts (cfg : Config) (room : Room) (password : Option String) : Bool :=
  match password, room.password with
  | some p, some stored =>
      if cfg.isEncryptedPassword then cfg.verify p stored else p == stored
  | _, _ => true

/-- The fresh `Room` literal built by `createRoom` (password stored
plain or hashed according to the flag). -/
def newRoom (cfg : Config) (roomId wsId : String) (password : Option String) (now : Int) :
    Room :=
  { id := roomId
    password := if cfg.isEncryptedPassword = false then password else password.map cfg.hash
    clients := [wsId]
    videoQueue := []
    historyQueue := []
    volume := 100
    playingNow := none
    lastActivity := now
    creatorId := wsId
    isPlaying := false
    currentTime := 0 }

/-- Model of `addVideo`: reject an empty/missing id (`invalidMessage`), then a
queue duplicate (`alreadyInQueue`), then a failed `checkEmbeddable`
probe (`videoNotEmbeddable`); start playback when nothing is playing
and the queue is empty, otherwise append. -/
def addVideo (embeddable : String → Bool) (now : Int) (room : Room) (video : YouTubeVideo) :
    Except ErrorCode Room :=
  if video.id = "" then .error .invalidMessage
  else if room.videoQueue.any (fun v => v.id == video.id) then .error .alreadyInQueue
  else if embeddable video.id = false then .error .videoNotEmbeddable
  else if room.playingNow = none ∧ room.videoQueue.length ≤ 0 then
    .ok { room with playingNow := some video, isPlaying := true, currentTime := 0,
                    lastActivity := now }
  else
    .ok { room with videoQueue := room.videoQueue ++ [video], lastActivity := now }

/-- Model of `playVideoNow`: require embeddable; drop the target id from queue
and history; move the current `playingNow` (when set with a non-empty
id) to the head of the history after deduplication; start the target. -/
def playVideoNow (embeddable : String → Bool) (now : Int) (room : Room)
    (video : YouTubeVideo) : Except ErrorCode Room :=
  if embeddable video.id = false then .error .videoNotEmbeddable
  else
    let hist1 := room.historyQueue.filter (fun v => v.id != video.id)
    let queue1 := room.videoQueue.filter (fun v => v.id != video.id)
    let hist2 :=
      match room.playingNow with
      | some p => if p.id ≠ "" then p :: hist1.filter (fun v => v.id != p.id) else hist1
      | none => hist1
    .ok { room with historyQueue := hist2, videoQueue := queue1, playingNow := some video,
                    isPlaying := true, currentTime := 0, lastActivity := now }

/-- Model of `nextVideo` (also the handler of `videoFinished`): move the current
`playingNow` (when set with a non-empty id) to the head of the history
after deduplication; then shift the queue head into `playingNow`, or
stop when the queue is empty. -/
def nextVideo (now : Int) (room : Room) : Room :=
  let room1 :=
    match room.playingNow with
    | some p =>
        if p.id ≠ "" then
          { room with historyQueue := p :: room.historyQueue.filter (fun v => v.id != p.id) }
        else room
    | none => room
  match room1.videoQueue with
  | next :: rest =>
      { room1 with videoQueue := rest, playingNow := some next, isPlaying := true,
                   currentTime := 0, lastActivity := now }
  | [] =>
      { room1 with playingNow := none, isPlaying := false, currentTime := 0,
                   lastActivity := now }

/-- Model of `play`: set `isPlaying` unconditionally. -/
def play (now : Int) (room : Room) : Room :=
  { room with isPlaying := true, lastActivity := now }

/-- Model of `pause`: clear `isPlaying` unconditionally. -/
def pause (now : Int) (room : Room) : Room :=
  { room with isPlaying := false, lastActivity := now }

/-- Model of `seek`: store the reported time unconditionally. -/
def seek (now : Int) (room : Room) (time : Int) : Room :=
  { room with currentTime := time, lastActivity := now }

/-- Model of `replay`: require a current video, then restart it. -/
def replay (now : Int) (room : Room) : Except ErrorCode Room :=
  match room.playingNow with
  | none => .error .invalidMessage
  | some _ => .ok { room with currentTime := 0, isPlaying := true, lastActivity := now }

/-- Model of `moveVideoToTop`: find the entry (else `videoNotFound`), then
filter it out and unshift it. -/
def moveVideoToTop (now : Int) (room : Room) (videoId : String) : Except ErrorCode Room :=
  match room.videoQueue.find? (fun v => v.id == videoId) with
  | none => .error .videoNotFound
  | some videoForMove =>
      .ok { room with
              videoQueue := videoForMove :: room.videoQueue.filter (fun v => v.id != videoId),
              lastActivity := now }

/-- Model of `clearQueue`. -/
def clearQueue (now : Int) (room : Room) : Room :=
  { room with videoQueue := [], lastActivity := now }

/-- Model of `clearHistory`. -/
def clearHistory (now : Int) (room : Room) : Room :=
  { room with historyQueue := [], lastActivity := now }

/-- Model of `removeVideoFromQueue`. -/
def removeVideoFromQueue (now : Int) (room : Room) (videoId : String) : Room :=
  { room with videoQueue := room.videoQueue.filter (fun v => v.id != videoId),
              lastActivity := now }

/-- Model of `setVolume` (through `updateRoom`): clamp to [0, 100] and store. -/
def setVolume (now : Int) (room : Room) (volume : Int) : Room :=
  { room with volume := min 100 (max 0 volume), lastActivity := now }

/-- Model of `addVideoAndMoveToTop`: require embeddable; drop the id from the
queue; start it when nothing is playing and the filtered queue is
empty, else prepend. -/
def addVideoAndMoveToTop (embeddable : String → Bool) (now : Int) (room : Room)
    (video : YouTubeVideo) : Except ErrorCode Room :=
  if embeddable video.id = false then .error .videoNotEmbeddable
  else
    let queue1 := room.videoQueue.filter (fun v => v.id != video.id)
    if room.playingNow = none ∧ queue1.length ≤ 0 then
      .ok { room with videoQueue := queue1, playingNow := some video, isPlaying := true,
                      currentTime := 0, lastActivity := now }
    else
      .ok { room with videoQueue := video :: queue1, lastActivity := now }

/-- One insertion step of the model of `Array.prototype.sort` with the
random comparator `() => Math.random() - 0.5` used by `shuffleArray`.
Each comparison consumes the next boolean of the stream `flips`
(comparator result negative = insert before).  The second component is
the index of the next unconsumed flip. -/
def insertWithFlips {α : Type} (flips : Nat → Bool) : Nat → α → List α → List α × Nat
  | k, a, [] => ([a], k)
  | k, a, b :: bs =>
      if flips k then (a :: b :: bs, k + 1)
      else
        let r := insertWithFlips flips (k + 1) a bs
        (b :: r.1, r.2)

/-- Insertion sort threading the flip stream: the model of a JS sort
driven by an inconsistent random comparator.  Whatever the comparator
answers, a JS sort returns some rearrangement of its input; this model
produces exactly the rearrangements an insertion sort can reach. -/
def sortWithFlipsAux {α : Type} (flips : Nat → Bool) : List α → List α × Nat
  | [] => ([], 0)
  | a :: as =>
      let r := sortWithFlipsAux flips as
      insertWithFlips flips r.2 a r.1

/-- The randomized sort used by `shuffleArray` on arrays of length ≥ 3. -/
def sortWithFlips {α : Type} (flips : Nat → Bool) (l : List α) : List α :=
  (sortWithFlipsAux flips l).1

/-- Model of `shuffleArray` of `src/utils/common.ts`: length 0 and 1 unchanged,
length 2 swapped unconditionally, otherwise `array.sort` with the
random comparator. -/
def shuffleArray {α : Type} (flips : Nat → Bool) (l : List α) : List α :=
  match l with
  | [] => l
  | [_] => l
  | [a, b] => [b, a]
  | _ => sortWithFlips flips l

/-- Model of `shuffleQueue`: replace the queue by its shuffle and touch
`lastActivity`. -/
def shuffleQueue (flips : Nat → Bool) (now : Int) (room : Room) : Room :=
  { room with videoQueue := shuffleArray flips room.videoQueue, lastActivity := now }

/-- Model of `generateRandomNumber({digits})` of `src/utils/common.ts`, with the
`Math.random()` draw `r` made explicit:
`Math.floor(min + r * (max - min + 1))` where `min = 10^(digits-1)` and
`max = 9 * 10^(digits-1)`.  (`lo`/`hi` stand for the variables named `min`/`max` in the source, which clash with the Lean `min`/`max`.) -/
def generateRandomNumber (digits : Nat) (r : Rat) : Int :=
  let lo : Int := 10 ^ (digits - 1)
  let hi : Int := 9 * 10 ^ (digits - 1)
  ⌊(lo : Rat) + r * ((hi : Rat) - (lo : Rat) + 1)⌋

/-- The `do { roomId = generateRandomNumber({digits: 6}).toString() }
while (await roomIdExists(roomId))` loop of `createRoom`, with the
sequence of random draws made explicit; `none` when every draw was
taken. -/
def createRoomId (taken : String → Bool) : List Rat → Option String
  | [] => none
  | r :: rs =>
      let roomId := toString (generateRandomNumber 6 r)
      if taken roomId then createRoomId taken rs else some roomId

/-- Settings of the cleanup worker: `INACTIVE_TIMEOUT` (already in
milliseconds), `MIN_VIDEO_TIMEOUT_HOURS` and
`VIDEO_DURATION_MULTIPLIER` (read with `parseFloat`, hence `Rat`). -/
structure CleanupConfig where
  inactiveTimeout : Int
  minVideoTimeoutHours : Rat
  videoDurationMultiplier : Rat

/-- The `timeoutMs` computed by `cleanupInactiveRooms` for one room:
the base timeout unless a video is actively playing, in which case
`max(MIN_VIDEO_TIMEOUT_HOURS` in ms`, duration_ms * multiplier)`. -/
def roomTimeoutMs (cfg : CleanupConfig) (room : Room) : Rat :=
  match room.playingNow with
  | some p =>
      if room.isPlaying then
        max (cfg.minVideoTimeoutHours * 60 * 60 * 1000)
          ((p.duration : Rat) * 1000 * cfg.videoDurationMultiplier)
      else (cfg.inactiveTimeout : Rat)
  | none => (cfg.inactiveTimeout : Rat)

/-- The eviction decision of `cleanupInactiveRooms` for one room:
`isInactive || isEmpty`, where
`isInactive = room.lastActivity && now - room.lastActivity > timeoutMs`
(the `&&` is JS truthiness on the timestamp) and
`isEmpty = !room.clients || room.clients.length === 0`. -/
def sweepCloses (cfg : CleanupConfig) (now : Int) (room : Room) : Bool :=
  let isInactive :=
    room.lastActivity != 0 && decide (((now - room.lastActivity : Int) : Rat) > roomTimeoutMs cfg room)
  let isEmpty := room.clients.isEmpty
  isInactive || isEmpty

/-- The shared store: `room:<id>` keys and the `roomId` field of the
`client:<id>` hashes, as association lists. -/
structure ServerState where
  rooms : List (String × Room)
  clientRoom : List (String × String)
deriving Repr, DecidableEq

/-- Model of `redis.set`-style update of an association list: overwrite the
entry in place when the key exists, append otherwise. -/
def setAssoc {β : Type} (l : List (String × β)) (k : String) (v : β) : List (String × β) :=
  if l.any (fun p => p.1 == k) then l.map (fun p => if p.1 == k then (k, v) else p)
  else l ++ [(k, v)]

/-- Model of `leaveCurrentRoom`: when the sender has a bound room, load it
(`validateRoom` throws `roomNotFound` when the record is gone), filter
the sender out of `clients`, write the room back, drop the client
binding, and touch `lastActivity` via `updateRoomActivity`. -/
def leaveCurrentRoomSt (now : Int) (st : ServerState) (wsId : String) :
    Except ErrorCode ServerState :=
  match st.clientRoom.lookup wsId with
  | none => .ok st
  | some rid =>
      match st.rooms.lookup rid with
      | none => .error .roomNotFound
      | some room =>
          let room1 := { room with clients := room.clients.filter (fun i => i != wsId),
                                   lastActivity := now }
          .ok { rooms := setAssoc st.rooms rid room1,
                clientRoom := st.clientRoom.filter (fun p => p.1 != wsId) }

/-- Model of `updateRoomActivity`: reload the room (`validateRoom`) and store it
with a fresh `lastActivity`. -/
def updateRoomActivitySt (now : Int) (st : ServerState) (roomId : String) :
    ServerState × Option ErrorCode :=
  match st.rooms.lookup roomId with
  | none => (st, some .roomNotFound)
  | some room =>
      ({ st with rooms := setAssoc st.rooms roomId { room with lastActivity := now } }, none)

/-- Model of `joinRoomInternal`: leave the current room first, reload the target
room, append the sender to `clients` when absent, and bind the client
record to the room. -/
def joinRoomInternalSt (now : Int) (st : ServerState) (sender roomId : String) :
    ServerState × Option ErrorCode :=
  match leaveCurrentRoomSt now st sender with
  | .error e => (st, some e)
  | .ok st1 =>
      match st1.rooms.lookup roomId with
      | none => (st1, some .roomNotFound)
      | some room =>
          let st2 :=
            if room.clients.contains sender then st1
            else { st1 with
                     rooms := setAssoc st1.rooms roomId
                       { room with clients := room.clients ++ [sender] } }
          ({ st2 with clientRoom := setAssoc st2.clientRoom sender roomId }, none)

/-- Model of `joinRoom` (and `reJoinRoom` via `isRejoin`): `validateRoom`, the
password gate, then `joinRoomInternal` and `updateRoomActivity`. -/
def joinRoomSt (cfg : Config) (now : Int) (st : ServerState) (sender roomId : String)
    (password : Option String) (isRejoin : Bool) : ServerState × Option ErrorCode :=
  match st.rooms.lookup roomId with
  | none => (st, some (if isRejoin then .rejoinRoomNotFound else .roomNotFound))
  | some room =>
      if passwordAccepts cfg room password then
        match joinRoomInternalSt now st sender roomId with
        | (st1, some e) => (st1, some e)
        | (st1, none) => updateRoomActivitySt now st1 roomId
      else (st, some .incorrectPassword)

/-- Model of `closeRoom(roomId)`: `validateRoom`, then delete the room key and
the client binding of every member (the `roomClosed` frames are
transport-side effects outside this model). -/
def closeRoomSt (st : ServerState) (roomId : String) : ServerState × Option ErrorCode :=
  match st.rooms.lookup roomId with
  | none => (st, some .roomNotFound)
  | some room =>
      ({ rooms := st.rooms.filter (fun q => q.1 != roomId),
         clientRoom := st.clientRoom.filter (fun q => !(room.clients.contains q.1)) }, none)

/-- Model of `handleCloseRoom`: membership check, creator check, then
`closeRoom`. -/
def handleCloseRoomSt (st : ServerState) (sender : String) : ServerState × Option ErrorCode :=
  match st.clientRoom.lookup sender with
  | none => (st, some .notInRoom)
  | some roomId =>
      match st.rooms.lookup roomId with
      | none => (st, some .roomNotFound)
      | some room =>
          if room.creatorId ≠ sender then (st, some .notCreatorOfRoom)
          else closeRoomSt st roomId

/-- The room-scoped command pattern shared by the video/playback
handlers: `validateClientInRoom` (`notInRoom`), `validateRoom`
(`roomNotFound`), run the handler body, and on success write the room
back with `redis.set`. -/
def withRoom (st : ServerState) (sender : String) (f : Room → Except ErrorCode Room) :
    ServerState × Option ErrorCode :=
  match st.clientRoom.lookup sender with
  | none => (st, some .notInRoom)
  | some roomId =>
      match st.rooms.lookup roomId with
      | none => (st, some .roomNotFound)
      | some room =>
          match f room with
          | .error e => (st, some e)
          | .ok r1 => ({ st with rooms := setAssoc st.rooms roomId r1 }, none)

/-- The client commands whose dispatch `handleMessage` routes to the
handlers modelled above (well-typed frames; a frame failing the
envelope checks yields `invalidMessage` without reaching a handler). -/
inductive Cmd
  | joinRoom (roomId : String) (password : Option String)
  | reJoinRoom (roomId : String) (password : Option String)
  | leaveRoom
  | closeRoom
  | addVideo (video : YouTubeVideo)
  | playNow (video : YouTubeVideo)
  | addVideoAndMoveToTop (video : YouTubeVideo)
  | nextVideo
  | videoFinished
  | play
  | pause
  | seek (time : Int)
  | replay
  | moveToTop (videoId : String)
  | shuffleQueue
  | clearQueue
  | clearHistory
  | removeVideoFromQueue (videoId : String)
  | setVolume (volume : Int)

/-- The `switch (message.type)` of `handleMessage`: route each command
to its handler; a thrown `RoomError` is caught by `handleError` and
reported as `errorWithCode` with the state left as the handler left it. -/
def dispatch (cfg : Config) (embeddable : String → Bool) (flips : Nat → Bool) (now : Int)
    (st : ServerState) (sender : String) : Cmd → ServerState × Option ErrorCode
  | .joinRoom roomId password => joinRoomSt cfg now st sender roomId password false
  | .reJoinRoom roomId password => joinRoomSt cfg now st sender roomId password true
  | .leaveRoom =>
      match leaveCurrentRoomSt now st sender with
      | .error e => (st, some e)
      | .ok st1 => (st1, none)
  | .closeRoom => handleCloseRoomSt st sender
  | .addVideo video => withRoom st sender (fun room => addVideo embeddable now room video)
  | .playNow video => withRoom st sender (fun room => playVideoNow embeddable now room video)
  | .addVideoAndMoveToTop video =>
      withRoom st sender (fun room => addVideoAndMoveToTop embeddable now room video)
  | .nextVideo => withRoom st sender (fun room => .ok (nextVideo now room))
  | .videoFinished => withRoom st sender (fun room => .ok (nextVideo now room))
  | .play => withRoom st sender (fun room => .ok (play now room))
  | .pause => withRoom st sender (fun room => .ok (pause now room))
  | .seek time => withRoom st sender (fun room => .ok (seek now room time))
  | .replay => withRoom st sender (replay now)
  | .moveToTop videoId => withRoom st sender (fun room => moveVideoToTop now room videoId)
  | .shuffleQueue => withRoom st sender (fun room => .ok (shuffleQueue flips now room))
  | .clearQueue => withRoom st sender (fun room => .ok (clearQueue now room))
  | .clearHistory => withRoom st sender (fun room => .ok (clearHistory now room))
  | .removeVideoFromQueue videoId =>
      withRoom st sender (fun room => .ok (removeVideoFromQueue now room videoId))
  | .setVolume volume => withRoom st sender (fun room => .ok (setVolume now room volume))

/-- Inserting with any flip stream permutes: the result is `a :: l`
rearranged. -/
theorem insertWithFlips_perm {α : Type} (flips : Nat → Bool) (a : α) :
    ∀ (l : List α) (k : Nat), (insertWithFlips flips k a l).1.Perm (a :: l) := by
  intro l
  induction l with
  | nil => intro k; simp [insertWithFlips]
  | cons b bs ih =>
      intro k
      by_cases h : flips k
      · simp [insertWithFlips, h]
      · simp only [insertWithFlips, h, if_false]
        exact ((ih (k + 1)).cons b).trans (List.Perm.swap a b bs)

/-- The randomized sort permutes its input for every flip stream. -/
theorem sortWithFlips_perm {α : Type} (flips : Nat → Bool) (l : List α) :
    (sortWithFlips flips l).Perm l := by
  induction l with
  | nil => simp [sortWithFlips, sortWithFlipsAux]
  | cons a as ih =>
      simp only [sortWithFlips, sortWithFlipsAux] at *
      exact (insertWithFlips_perm flips a _ _).trans (ih.cons a)

/-- Lemma: `shuffleArray` permutes its input for every flip stream. -/
theorem shuffleArray_perm {α : Type} (flips : Nat → Bool) (l : List α) :
    (shuffleArray flips l).Perm l := by
  match l with
  | [] => exact List.Perm.refl _
  | [a] => exact List.Perm.refl _
  | [a, b] => exact List.Perm.swap a b []
  | a :: b :: c :: rest => exact sortWithFlips_perm flips (a :: b :: c :: rest)

/-- C9: for every room and every outcome of the randomization,
`shuffleQueue` leaves `videoQueue` a permutation of its prior
contents — the multiset of queued video descriptors is unchanged. -/
theorem shuffleQueue_preserves_multiset (flips : Nat → Bool) (now : Int) (room : Room) :
    ((shuffleQueue flips now room).videoQueue : Multiset YouTubeVideo) =
      (room.videoQueue : Multiset YouTubeVideo) := by
  exact Multiset.coe_eq_coe.mpr (shuffleArray_perm flips room.videoQueue)

/-- A concrete video descriptor used as input in the evaluation
theorems below. -/
def videoV1 : YouTubeVideo := { id := "v1", title := "First", duration := 180 }

/-- A second concrete video descriptor. -/
def videoV2 : YouTubeVideo := { id := "v2", title := "Second", duration := 120 }

/-- A concrete room with no current video. -/
def idleRoom : Room :=
  { id := "473829", password := none, clients := ["A"], videoQueue := [],
    historyQueue := [], volume := 100, playingNow := none, lastActivity := 1000,
    creatorId := "A", isPlaying := false, currentTime := 0 }

/-- A concrete room currently playing `videoV1` with `videoV2` queued. -/
def playingRoom : Room :=
  { id := "473829", password := none, clients := ["A", "B"], videoQueue := [videoV2],
    historyQueue := [], volume := 100, playingNow := some videoV1, lastActivity := 1000,
    creatorId := "A", isPlaying := true, currentTime := 42 }

/-- Invariant 3 of the data model in the spec: a room with no current video
is not playing and sits at position 0. -/
def nullPlaybackInv (room : Room) : Prop :=
  room.playingNow = none → room.isPlaying = false ∧ room.currentTime = 0

/-- C2 counterexample: `play` applied to a room whose `playingNow` is
null completes with `playingNow` still null but `isPlaying = true`, so
the claimed invariant does not hold after `play`. -/
theorem play_on_empty_room_breaks_invariant :
    (play 2000 idleRoom).playingNow = none ∧ (play 2000 idleRoom).isPlaying = true :=
  ⟨rfl, rfl⟩

/-- C2 amended: the null-playback invariant is established by
`nextVideo` / `videoFinished` and by the fresh room of `createRoom`,
and is preserved by `pause`; `play` and `seek` do not preserve it
(`play` on a room with null `playingNow` leaves `isPlaying = true`). -/
theorem nullPlaybackInv_selected_commands (cfg : Config) (now : Int) (room : Room)
    (roomId wsId : String) (password : Option String) :
    nullPlaybackInv (nextVideo now room)
    ∧ (nullPlaybackInv room → nullPlaybackInv (pause now room))
    ∧ nullPlaybackInv (newRoom cfg roomId wsId password now) := by
  refine ⟨?_, ?_, ?_⟩
  · intro h
    rcases hq : room.videoQueue with _ | ⟨v, rest⟩
    · constructor <;>
        · rcases hp : room.playingNow with _ | p
          · simp [nextVideo, hp, hq]
          · by_cases hpe : p.id ≠ "" <;> simp [nextVideo, hp, hq, hpe]
    · exfalso
      rcases hp : room.playingNow with _ | p
      · simp [nextVideo, hp, hq] at h
      · by_cases hpe : p.id ≠ "" <;> simp [nextVideo, hp, hq, hpe] at h
  · intro h hp
    refine ⟨rfl, ?_⟩
    have hp0 : room.playingNow = none := hp
    simpa [pause] using (h hp0).2
  · intro _; exact ⟨rfl, rfl⟩

/-- C2 witness: the amended theorem instantiated on a concrete room
satisfying the invariant. -/
theorem nullPlaybackInv_selected_commands_witness :
    nullPlaybackInv idleRoom ∧ nullPlaybackInv (pause 2000 idleRoom) :=
  ⟨fun _ => ⟨rfl, rfl⟩,
   (nullPlaybackInv_selected_commands ⟨false, fun _ _ => false, id⟩ 2000 idleRoom
      "100000" "A" none).2.1 (fun _ => ⟨rfl, rfl⟩)⟩

/-- C8 counterexample: `seek(-1)` stores `-1`, leaving a negative
`currentTime` in the stored room. -/
theorem seek_stores_negative_time :
    (seek 2000 idleRoom (-1)).currentTime = -1 ∧ (seek 2000 idleRoom (-1)).currentTime < 0 :=
  ⟨rfl, by decide⟩

/-- C8 amended: `seek(t)` stores the reported time unconditionally —
after `seek(t)` the stored `currentTime` is exactly `t`, negative
values included; only `lastActivity` changes besides it. -/
theorem seek_stores_time_unconditionally (now : Int) (room : Room) (time : Int) :
    (seek now room time).currentTime = time ∧ (seek now room time).lastActivity = now
    ∧ (seek now room time).playingNow = room.playingNow
    ∧ (seek now room time).isPlaying = room.isPlaying :=
  ⟨rfl, rfl, rfl, rfl⟩

/-- C4: `nextVideo` (and `videoFinished`, routed to the same handler)
first moves the current `playingNow`, if set, to the head of
`historyQueue` after removing any existing entry with the same id;
then, when the queue is non-empty, exactly its head is removed and
becomes `playingNow` with `isPlaying = true` and `currentTime = 0`;
otherwise `playingNow` becomes null, `isPlaying` false, `currentTime`
0.  The hypothesis records that a current video carries a non-empty id
(the JS guard is `room.playingNow && room.playingNow.id`, and stored
videos have non-empty ids: `addVideo` rejects empty ones). -/
theorem nextVideo_rotation (now : Int) (room : Room)
    (hid : room.playingNow.all (fun p => p.id != "") = true) :
    ((nextVideo now room).historyQueue =
      match room.playingNow with
      | some p => p :: room.historyQueue.filter (fun v => v.id != p.id)
      | none => room.historyQueue)
    ∧ (∀ v rest, room.videoQueue = v :: rest →
        (nextVideo now room).playingNow = some v ∧ (nextVideo now room).videoQueue = rest ∧
        (nextVideo now room).isPlaying = true ∧ (nextVideo now room).currentTime = 0)
    ∧ (room.videoQueue = [] →
        (nextVideo now room).playingNow = none ∧ (nextVideo now room).isPlaying = false ∧
        (nextVideo now room).currentTime = 0) := by
  rcases hp : room.playingNow with _ | p
  · refine ⟨?_, ?_, ?_⟩
    · rcases hq : room.videoQueue with _ | ⟨v, rest⟩ <;> simp [nextVideo, hp, hq]
    · intro v rest hq; simp [nextVideo, hp, hq]
    · intro hq; simp [nextVideo, hp, hq]
  · have hpe : p.id ≠ "" := by
      have := hid
      rw [hp] at this
      simpa using this
    refine ⟨?_, ?_, ?_⟩
    · rcases hq : room.videoQueue with _ | ⟨v, rest⟩ <;> simp [nextVideo, hp, hq, hpe]
    · intro v rest hq; simp [nextVideo, hp, hq, hpe]
    · intro hq; simp [nextVideo, hp, hq, hpe]

/-- C4 witness: the rotation theorem on a concrete room playing
`videoV1` with `videoV2` queued. -/
theorem nextVideo_rotation_witness :
    playingRoom.playingNow.all (fun p => p.id != "") = true
    ∧ (nextVideo 2000 playingRoom).historyQueue =
        match playingRoom.playingNow with
        | some p => p :: playingRoom.historyQueue.filter (fun v => v.id != p.id)
        | none => playingRoom.historyQueue :=
  ⟨by decide, (nextVideo_rotation 2000 playingRoom (by decide)).1⟩

/-- C5: for every room and embeddable video with a non-empty id,
`addVideo` fails with `alreadyInQueue` exactly when some queue entry
already carries the video id; otherwise it starts playback (leaving
the queue empty) when `playingNow` is null and the queue is empty, and
appends to the end of the queue in every other case. -/
theorem addVideo_spec (embeddable : String → Bool) (now : Int) (room : Room)
    (video : YouTubeVideo) (hid : video.id ≠ "") (hemb : embeddable video.id = true) :
    (room.videoQueue.any (fun v => v.id == video.id) = true →
        addVideo embeddable now room video = .error .alreadyInQueue)
    ∧ (room.videoQueue.any (fun v => v.id == video.id) = false →
        ((room.playingNow = none → room.videoQueue = [] →
            addVideo embeddable now room video =
              .ok { room with playingNow := some video, isPlaying := true, currentTime := 0,
                              lastActivity := now })
         ∧ ((room.playingNow ≠ none ∨ room.videoQueue ≠ []) →
            addVideo embeddable now room video =
              .ok { room with videoQueue := room.videoQueue ++ [video],
                              lastActivity := now }))) := by
  refine ⟨?_, ?_⟩
  · intro hdup
    simp [addVideo, hid, hdup]
  · intro hdup
    refine ⟨?_, ?_⟩
    · intro hpn hq
      simp [addVideo, hid, hdup, hemb, hpn, hq]
    · intro hor
      have hcond : ¬(room.playingNow = none ∧ room.videoQueue.length ≤ 0) := by
        rcases hor with h | h
        · exact fun hc => h hc.1
        · intro hc
          exact h (List.length_eq_zero.mp (Nat.le_zero.mp hc.2))
      simp [addVideo, hid, hdup, hemb, hcond]
      intro hpn hq
      exact hcond ⟨hpn, by simp [hq]⟩

/-- C5 witness: adding an embeddable video to a concrete room with no
current video and an empty queue starts it and leaves the queue empty. -/
theorem addVideo_spec_witness :
    videoV1.id ≠ "" ∧ (fun _ => true) videoV1.id = true
    ∧ addVideo (fun _ => true) 2000 idleRoom videoV1 =
        .ok { idleRoom with playingNow := some videoV1, isPlaying := true, currentTime := 0,
                            lastActivity := 2000 } :=
  ⟨by decide, rfl,
   ((addVideo_spec (fun _ => true) 2000 idleRoom videoV1 (by decide) rfl).2 (by decide)).1
     rfl rfl⟩

/-- C10: the duplicate check of `addVideo` inspects only `videoQueue`,
never `playingNow` — when the id of the currently playing video equals the
id of the new video but no queue entry carries it, `addVideo` succeeds and
appends the video to the queue. -/
theorem addVideo_requeues_playing_video (embeddable : String → Bool) (now : Int)
    (room : Room) (video p : YouTubeVideo) (hplay : room.playingNow = some p)
    (_hpid : p.id = video.id)
    (hdup : room.videoQueue.any (fun v => v.id == video.id) = false)
    (hid : video.id ≠ "") (hemb : embeddable video.id = true) :
    addVideo embeddable now room video =
      .ok { room with videoQueue := room.videoQueue ++ [video], lastActivity := now } := by
  simp [addVideo, hid, hdup, hemb, hplay]

/-- C10 witness: re-adding the currently playing `videoV1` to a
concrete room whose queue holds only `videoV2` appends it. -/
theorem addVideo_requeues_playing_video_witness :
    playingRoom.playingNow = some videoV1 ∧ videoV1.id = videoV1.id
    ∧ playingRoom.videoQueue.any (fun v => v.id == videoV1.id) = false
    ∧ videoV1.id ≠ "" ∧ (fun _ => true) videoV1.id = true
    ∧ addVideo (fun _ => true) 2000 playingRoom videoV1 =
        .ok { playingRoom with videoQueue := playingRoom.videoQueue ++ [videoV1],
                               lastActivity := 2000 } :=
  ⟨rfl, rfl, by decide, by decide, rfl,
   addVideo_requeues_playing_video (fun _ => true) 2000 playingRoom videoV1 videoV1 rfl rfl
     (by decide) (by decide) rfl⟩

/-- Helper: every error exit of the shared room-scoped command pattern
happens before the `redis.set` write-back, so the store is untouched. -/
theorem withRoom_error_unchanged (st : ServerState) (sender : String)
    (f : Room → Except ErrorCode Room) (st1 : ServerState) (e : ErrorCode)
    (h : withRoom st sender f = (st1, some e)) : st1 = st := by
  unfold withRoom at h
  split at h
  · injection h with h1 _; exact h1.symm
  · split at h
    · injection h with h1 _; exact h1.symm
    · split at h
      · injection h with h1 _; exact h1.symm
      · injection h with _ h2; exact Option.noConfusion h2

/-- Helper: the only error `leaveCurrentRoom` can raise is
`roomNotFound` (from its inner `validateRoom`). -/
theorem leaveCurrentRoomSt_error_code (now : Int) (st : ServerState) (wsId : String)
    (e : ErrorCode) (h : leaveCurrentRoomSt now st wsId = .error e) : e = .roomNotFound := by
  unfold leaveCurrentRoomSt at h
  split at h
  · exact Except.noConfusion h
  · split at h
    · injection h with h1; exact h1.symm
    · exact Except.noConfusion h

/-- Helper: the only error `updateRoomActivity` can raise is
`roomNotFound`. -/
theorem updateRoomActivitySt_error_code (now : Int) (st : ServerState) (roomId : String)
    (st1 : ServerState) (e : ErrorCode)
    (h : updateRoomActivitySt now st roomId = (st1, some e)) : e = .roomNotFound := by
  unfold updateRoomActivitySt at h
  split at h
  · injection h with _ h2; injection h2 with h2; exact h2.symm
  · injection h with _ h2; exact Option.noConfusion h2

/-- Helper: the only error `joinRoomInternal` can raise is
`roomNotFound`. -/
theorem joinRoomInternalSt_error_code (now : Int) (st : ServerState) (sender roomId : String)
    (st1 : ServerState) (e : ErrorCode)
    (h : joinRoomInternalSt now st sender roomId = (st1, some e)) : e = .roomNotFound := by
  unfold joinRoomInternalSt at h
  split at h
  next e1 heq =>
    injection h with _ h2; injection h2 with h2
    exact h2 ▸ leaveCurrentRoomSt_error_code now st sender e1 heq
  next st2 heq =>
    split at h
    · injection h with _ h2; injection h2 with h2; exact h2.symm
    · injection h with _ h2; exact Option.noConfusion h2

/-- Helper: every `joinRoom` error other than the room-lookup codes is
raised before any store write. -/
theorem joinRoomSt_error_unchanged (cfg : Config) (now : Int) (st : ServerState)
    (sender roomId : String) (password : Option String) (isRejoin : Bool)
    (st1 : ServerState) (e : ErrorCode)
    (h : joinRoomSt cfg now st sender roomId password isRejoin = (st1, some e))
    (hnf : e ≠ .roomNotFound) : st1 = st := by
  unfold joinRoomSt at h
  split at h
  · injection h with h1 _; exact h1.symm
  · split at h
    · split at h
      next st2 e2 hji =>
        injection h with h1 h2; injection h2 with h2
        exact absurd (h2 ▸ joinRoomInternalSt_error_code now st sender roomId st2 e2 hji) hnf
      next st2 hji =>
        exact absurd (updateRoomActivitySt_error_code now st2 roomId st1 e h) hnf
    · injection h with h1 _; exact h1.symm

/-- Helper: every error of the `closeRoom` handler is raised before
the room key and the client bindings are deleted. -/
theorem handleCloseRoomSt_error_unchanged (st : ServerState) (sender : String)
    (st1 : ServerState) (e : ErrorCode)
    (h : handleCloseRoomSt st sender = (st1, some e)) : st1 = st := by
  unfold handleCloseRoomSt at h
  split at h
  · injection h with h1 _; exact h1.symm
  · split at h
    · injection h with h1 _; exact h1.symm
    · split at h
      · injection h with h1 _; exact h1.symm
      · unfold closeRoomSt at h
        split at h
        · injection h with h1 _; exact h1.symm
        · injection h with _ h2; exact Option.noConfusion h2

/-- C6: a command that fails with one of the domain errors
(`alreadyInQueue`, `videoNotEmbeddable`, `videoNotFound`,
`notCreatorOfRoom`, `notInRoom`, `incorrectPassword`,
`invalidMessage`) leaves the stored state exactly as it was before the
command: every such throw happens before any store write. -/
theorem domain_errors_do_not_mutate_state (cfg : Config) (embeddable : String → Bool)
    (flips : Nat → Bool) (now : Int) (st : ServerState) (sender : String) (c : Cmd)
    (st1 : ServerState) (e : ErrorCode)
    (h : dispatch cfg embeddable flips now st sender c = (st1, some e))
    (he : e ∈ [ErrorCode.alreadyInQueue, ErrorCode.videoNotEmbeddable,
               ErrorCode.videoNotFound, ErrorCode.notCreatorOfRoom, ErrorCode.notInRoom,
               ErrorCode.incorrectPassword, ErrorCode.invalidMessage]) :
    st1 = st := by
  have hnf : e ≠ .roomNotFound := by rintro rfl; simp at he
  cases c with
  | joinRoom roomId password =>
      simp only [dispatch] at h
      exact joinRoomSt_error_unchanged cfg now st sender roomId password false st1 e h hnf
  | reJoinRoom roomId password =>
      simp only [dispatch] at h
      exact joinRoomSt_error_unchanged cfg now st sender roomId password true st1 e h hnf
  | leaveRoom =>
      simp only [dispatch] at h
      split at h
      · injection h with h1 _; exact h1.symm
      · injection h with _ h2; exact Option.noConfusion h2
  | closeRoom =>
      simp only [dispatch] at h
      exact handleCloseRoomSt_error_unchanged st sender st1 e h
  | addVideo video =>
      simp only [dispatch] at h
      exact withRoom_error_unchanged st sender _ st1 e h
  | playNow video =>
      simp only [dispatch] at h
      exact withRoom_error_unchanged st sender _ st1 e h
  | addVideoAndMoveToTop video =>
      simp only [dispatch] at h
      exact withRoom_error_unchanged st sender _ st1 e h
  | nextVideo =>
      simp only [dispatch] at h
      exact withRoom_error_unchanged st sender _ st1 e h
  | videoFinished =>
      simp only [dispatch] at h
      exact withRoom_error_unchanged st sender _ st1 e h
  | play =>
      simp only [dispatch] at h
      exact withRoom_error_unchanged st sender _ st1 e h
  | pause =>
      simp only [dispatch] at h
      exact withRoom_error_unchanged st sender _ st1 e h
  | seek time =>
      simp only [dispatch] at h
      exact withRoom_error_unchanged st sender _ st1 e h
  | replay =>
      simp only [dispatch] at h
      exact withRoom_error_unchanged st sender _ st1 e h
  | moveToTop videoId =>
      simp only [dispatch] at h
      exact withRoom_error_unchanged st sender _ st1 e h
  | shuffleQueue =>
      simp only [dispatch] at h
      exact withRoom_error_unchanged st sender _ st1 e h
  | clearQueue =>
      simp only [dispatch] at h
      exact withRoom_error_unchanged st sender _ st1 e h
  | clearHistory =>
      simp only [dispatch] at h
      exact withRoom_error_unchanged st sender _ st1 e h
  | removeVideoFromQueue videoId =>
      simp only [dispatch] at h
      exact withRoom_error_unchanged st sender _ st1 e h
  | setVolume volume =>
      simp only [dispatch] at h
      exact withRoom_error_unchanged st sender _ st1 e h

/-- A plaintext-scheme configuration (`IS_ENCRYPTED_PASSWORD=false`). -/
def plainConfig : Config := { isEncryptedPassword := false, verify := fun _ _ => false,
                              hash := id }

/-- A concrete store: `playingRoom` (creator `"A"`) with members `"A"`
and `"B"` bound to it. -/
def twoClientState : ServerState :=
  { rooms := [("473829", playingRoom)],
    clientRoom := [("A", "473829"), ("B", "473829")] }

/-- C6 witness: `closeRoom` sent by the non-creator `"B"` fails with
`notCreatorOfRoom` and the theorem yields that the store is unchanged. -/
theorem domain_errors_do_not_mutate_state_witness :
    dispatch plainConfig (fun _ => true) (fun _ => false) 2000 twoClientState "B" .closeRoom
      = (twoClientState, some .notCreatorOfRoom)
    ∧ ErrorCode.notCreatorOfRoom ∈
        [ErrorCode.alreadyInQueue, ErrorCode.videoNotEmbeddable, ErrorCode.videoNotFound,
         ErrorCode.notCreatorOfRoom, ErrorCode.notInRoom, ErrorCode.incorrectPassword,
         ErrorCode.invalidMessage]
    ∧ twoClientState = twoClientState :=
  ⟨rfl, by decide,
   domain_errors_do_not_mutate_state plainConfig (fun _ => true) (fun _ => false) 2000
     twoClientState "B" .closeRoom twoClientState .notCreatorOfRoom rfl (by decide)⟩

/-- A concrete store holding the password-protected room of scenario 2
of the spec: room `"500000"` with plaintext password `"s3"`, created and
occupied by `"A"`. -/
def protectedState : ServerState :=
  { rooms := [("500000",
      { id := "500000", password := some "s3", clients := ["A"], videoQueue := [],
        historyQueue := [], volume := 100, playingNow := none, lastActivity := 1000,
        creatorId := "A", isPlaying := false, currentTime := 0 })],
    clientRoom := [("A", "500000")] }

/-- C1: `joinRoom` on the password-protected room `"500000"` with NO
supplied password succeeds — the sender `"B"` is added to `clients` and
no `incorrectPassword` error is raised — because the password gate
`!isNullish(password) && !isNullish(room?.password)` is skipped
entirely when the client omits the password. -/
theorem joinRoom_without_password_joins_protected_room :
    (joinRoomSt plainConfig 2000 protectedState "B" "500000" none false).2 = none
    ∧ ((joinRoomSt plainConfig 2000 protectedState "B" "500000" none false).1.rooms.lookup
          "500000").map Room.clients = some ["A", "B"]
    ∧ (joinRoomSt plainConfig 2000 protectedState "B" "500000" none false).1.clientRoom.lookup
          "B" = some "500000" :=
  ⟨rfl, rfl, rfl⟩

/-- C3: the sweep closes a room iff its clients list is empty OR the
elapsed time since `lastActivity` exceeds the applicable timeout; the
timeout is the configured base unless a video is actively playing
(`playingNow` set AND `isPlaying`), in which case it is
`max(MIN_VIDEO_TIMEOUT_HOURS` in ms`, duration_ms × multiplier)`; hence
a room with members and an actively playing video is never closed
before the extended timeout elapses.  The hypothesis records that the
room carries a real (non-zero) timestamp, as every stored room does
(`Date.now()`); the JS `room.lastActivity && ...` truthiness guard
makes a zero timestamp a separate case. -/
theorem cleanup_sweep_closes_iff (cfg : CleanupConfig) (now : Int) (room : Room)
    (h : room.lastActivity ≠ 0) :
    (sweepCloses cfg now room = true ↔
      (room.clients = [] ∨
        ((now - room.lastActivity : Int) : Rat) > roomTimeoutMs cfg room))
    ∧ (∀ p, room.playingNow = some p → room.isPlaying = true →
        roomTimeoutMs cfg room =
          max (cfg.minVideoTimeoutHours * 60 * 60 * 1000)
            ((p.duration : Rat) * 1000 * cfg.videoDurationMultiplier))
    ∧ ((room.playingNow = none ∨ room.isPlaying = false) →
        roomTimeoutMs cfg room = (cfg.inactiveTimeout : Rat))
    ∧ (room.clients ≠ [] → ∀ p, room.playingNow = some p → room.isPlaying = true →
        ((now - room.lastActivity : Int) : Rat) ≤
          max (cfg.minVideoTimeoutHours * 60 * 60 * 1000)
            ((p.duration : Rat) * 1000 * cfg.videoDurationMultiplier) →
        sweepCloses cfg now room = false) := by
  have hb : (room.lastActivity != 0) = true := by simpa using h
  refine ⟨?_, ?_, ?_, ?_⟩
  · simp [sweepCloses, hb, List.isEmpty_iff, or_comm]
  · intro p hp hplay
    simp [roomTimeoutMs, hp, hplay]
  · rintro (hp | hp)
    · simp [roomTimeoutMs, hp]
    · rcases hq : room.playingNow with _ | p <;> simp [roomTimeoutMs, hq, hp]
  · intro hc p hp hplay hle
    have ht : roomTimeoutMs cfg room =
        max (cfg.minVideoTimeoutHours * 60 * 60 * 1000)
          ((p.duration : Rat) * 1000 * cfg.videoDurationMultiplier) := by
      simp [roomTimeoutMs, hp, hplay]
    have hcb : room.clients.isEmpty = false := by
      simpa [List.isEmpty_iff] using hc
    have hd : decide (((now - room.lastActivity : Int) : Rat) > roomTimeoutMs cfg room)
        = false := by
      rw [ht]
      exact decide_eq_false (not_lt.mpr hle)
    simp only [sweepCloses]
    rw [hd, hcb]
    simp

/-- The default cleanup settings: 300 s base timeout, 2 h minimum
video timeout, 5× duration multiplier. -/
def defaultCleanupConfig : CleanupConfig :=
  { inactiveTimeout := 300000, minVideoTimeoutHours := 2, videoDurationMultiplier := 5 }

/-- C3 witness: the sweep criterion instantiated on a concrete playing
room one hour after its last activity. -/
theorem cleanup_sweep_closes_iff_witness :
    playingRoom.lastActivity ≠ 0
    ∧ (sweepCloses defaultCleanupConfig 3601000 playingRoom = true ↔
        (playingRoom.clients = [] ∨
          ((3601000 - playingRoom.lastActivity : Int) : Rat) >
            roomTimeoutMs defaultCleanupConfig playingRoom)) :=
  ⟨by decide,
   (cleanup_sweep_closes_iff defaultCleanupConfig 3601000 playingRoom (by decide)).1⟩

/-- Helper: a single roll of `generateRandomNumber({digits: 6})` lies
in [100000, 900000] for every draw in [0, 1):
`Math.floor(100000 + r * 800001)`. -/
theorem generateRandomNumber6_bounds (r : Rat) (h0 : 0 ≤ r) (h1 : r < 1) :
    100000 ≤ generateRandomNumber 6 r ∧ generateRandomNumber 6 r ≤ 900000 := by
  have he : generateRandomNumber 6 r = ⌊(100000 : Rat) + r * 800001⌋ := by
    simp only [generateRandomNumber]
    norm_num
  constructor
  · rw [he, Int.le_floor]
    push_cast
    nlinarith
  · rw [he]
    have hlt : ⌊(100000 : Rat) + r * 800001⌋ < 900001 := by
      rw [Int.floor_lt]
      push_cast
      nlinarith
    omega

/-- C7 counterexample: no draw in [0, 1) makes the single roll of
`generateRandomNumber({digits: 6})` equal to 999999 — the roll never
exceeds 900000 (`max` is computed as `9 * 10^(digits-1)`, not
`10^digits - 1`), so the distribution is not uniform over the 6-digit
integers [100000, 999999]. -/
theorem generateRandomNumber6_never_999999 :
    ¬ ∃ r : Rat, 0 ≤ r ∧ r < 1 ∧ generateRandomNumber 6 r = 999999 := by
  rintro ⟨r, h0, h1, he⟩
  have hb := (generateRandomNumber6_bounds r h0 h1).2
  rw [he] at hb
  norm_num at hb

/-- C7 amended: a single roll is `⌊100000 + r·800001⌋`, which lies in
[100000, 900000] — so its decimal representation always has exactly 6
digits, but the integers 900001–999999 are never produced and the
distribution is not uniform over all 6-digit integers; the creation
loop re-rolls while `existsId` reports the id taken, so the chosen id
is free and is the decimal string of one of the draws. -/
theorem createRoom_id_generation (r : Rat) (h0 : 0 ≤ r) (h1 : r < 1) :
    (100000 ≤ generateRandomNumber 6 r ∧ generateRandomNumber 6 r ≤ 900000)
    ∧ (Nat.digits 10 (generateRandomNumber 6 r).toNat).length = 6
    ∧ (∀ (taken : String → Bool) (rs : List Rat) (roomId : String),
        createRoomId taken rs = some roomId →
        taken roomId = false ∧ ∃ x ∈ rs, roomId = toString (generateRandomNumber 6 x)) := by
  obtain ⟨hlo, hhi⟩ := generateRandomNumber6_bounds r h0 h1
  refine ⟨⟨hlo, hhi⟩, ?_, ?_⟩
  · have h100 : 10 ^ 5 ≤ (generateRandomNumber 6 r).toNat := by
      have : (10 : Nat) ^ 5 = 100000 := by norm_num
      omega
    have h1000 : (generateRandomNumber 6 r).toNat < 10 ^ 6 := by
      have : (10 : Nat) ^ 6 = 1000000 := by norm_num
      omega
    have hn0 : (generateRandomNumber 6 r).toNat ≠ 0 := by omega
    rw [Nat.digits_len 10 _ (by norm_num) hn0,
        Nat.log_eq_of_pow_le_of_lt_pow h100 h1000]
  · intro taken rs
    induction rs with
    | nil => intro roomId hc; exact absurd hc (by simp [createRoomId])
    | cons x xs ih =>
        intro roomId hc
        by_cases ht : taken (toString (generateRandomNumber 6 x)) = true
        · have hstep : createRoomId taken (x :: xs) = createRoomId taken xs := by
            simp [createRoomId, ht]
          rw [hstep] at hc
          obtain ⟨hfree, y, hy, hyeq⟩ := ih roomId hc
          exact ⟨hfree, y, by simp [hy], hyeq⟩
        · have hf : taken (toString (generateRandomNumber 6 x)) = false := by
            simpa using ht
          have hstep : createRoomId taken (x :: xs)
              = some (toString (generateRandomNumber 6 x)) := by
            simp [createRoomId, hf]
          rw [hstep] at hc
          injection hc with hc
          exact ⟨hc ▸ hf, x, by simp, hc.symm⟩

/-- C7 witness: the generation facts instantiated at the draw 1/2 (the
roll is 500000). -/
theorem createRoom_id_generation_witness :
    (0 : Rat) ≤ 1 / 2 ∧ (1 / 2 : Rat) < 1
    ∧ (100000 ≤ generateRandomNumber 6 (1 / 2)
        ∧ generateRandomNumber 6 (1 / 2) ≤ 900000) :=
  ⟨by norm_num, by norm_num,
   (createRoom_id_generation (1 / 2) (by norm_num) (by norm_num)).1⟩
